import Mathlib

/-
Verification development for the `sf-dune-utils` repository.

The repository contains two sync daemons (`sup_metrics_sync.py`,
`supertoken_holders_sync.py`), a shared base class (`dune_utils.py`) and a
download script.  We shallowly embed the control flow of the orchestration
code: remote responses (HTTP statuses, client exceptions, decoded JSON) are
explicit inputs, and the observable behaviour of a call is a pair of a
return value and a list of emitted effects (warehouse operations, network
calls, file creations, log lines).  Python exceptions that the source
catches are modelled by `Option`/sum-typed inputs; functions that can let an
exception escape return a `PyResult`.
-/

namespace SfDune

/-- A scalar cell of a warehouse row: a string, an integer, or null
(Python `None`, serialized to JSON `null`). -/
inductive Cell where
  | str (s : String)
  | int (n : Int)
  | null
  deriving DecidableEq, Repr

/-- A row is a mapping from field name to cell, in insertion order
(a Python dict as built by the source). -/
abbrev Row := List (String × Cell)

/-- Result of a Python call as seen by its caller: either a returned value
or a propagated exception. -/
inductive PyResult (α : Type) where
  | ok (a : α)
  | exn (msg : String)
  deriving DecidableEq, Repr

/-- Python truthiness of `os.getenv` results: `None` and the empty string
are falsy, any other string is truthy. -/
def pyTruthyOptStr : Option String → Bool
  | none => false
  | some s => s ≠ ""

/-- Python falsiness of an optional string (`not token.get("id")`):
missing or empty. -/
def pyFalsyStr : Option String → Bool
  | none => true
  | some s => s = ""

/-- Python's `str.strip()`: drop leading and trailing whitespace.
(Defined structurally over the character list so that it computes by
kernel reduction.) -/
def pyStrip (s : String) : String :=
  String.mk (((s.data.dropWhile Char.isWhitespace).reverse.dropWhile Char.isWhitespace).reverse)

/-- Decimal digit run to a number, `none` when empty or non-digits. -/
def digitsToNat (cs : List Char) : Option Nat :=
  if cs.isEmpty then none
  else if cs.all Char.isDigit then
    some (cs.foldl (fun n c => n * 10 + (c.toNat - 48)) 0)
  else none

/-- Python's `int(s)` on a string: strip whitespace, optional sign, decimal
digits; `none` models the `ValueError` it raises otherwise. -/
def pyInt (s : String) : Option Int :=
  match (pyStrip s).data with
  | '-' :: cs => (digitsToNat cs).map fun n => -(n : Int)
  | '+' :: cs => (digitsToNat cs).map fun n => (n : Int)
  | cs => (digitsToNat cs).map fun n => (n : Int)

/-- One column of a warehouse table schema, as in the Python schema dicts
`\x7b"name": ..., "type": ..., "nullable": ...\x7d`. -/
structure SchemaCol where
  name : String
  type : String
  nullable : Bool
  deriving DecidableEq, Repr

namespace DuneUtils

/-- Behaviour of the external Dune client's `create_table` call:
it either returns a result object (whose `already_existed` attribute may be
absent, modelled by `Option Bool` and read with default `True` by the
source's `getattr(result, 'already_existed', True)`), or raises. -/
inductive ClientResp where
  | ok (already_existed : Option Bool)
  | exn (msg : String)
  deriving DecidableEq, Repr

/-- An observable warehouse/network operation performed by the metrics sync. -/
inductive WOp where
  | createTable (name : String)
  | clearTable (name : String)
  | insertRows (name : String) (rows : List Row)
  | fetchMetrics
  deriving DecidableEq, Repr

/-- Shallow embedding of `DuneSyncBase.create_table` (dune_utils.py 85-116).
`duneAvailable` models `self.dune` being set; `resp` is the client's
behaviour.  The source returns the API result only when a table was newly
created, returns `None` when the table already exists, and catches every
exception (mapping it to `None` as well); hence the embedding always
returns `PyResult.ok`.  Schema/description arguments do not affect control
flow and are omitted. -/
def create_table (duneAvailable : Bool) (resp : ClientResp) (tableName : String) :
    PyResult (Option Unit) × List WOp :=
  if duneAvailable then
    match resp with
    | ClientResp.ok ae =>
        if ae.getD true then (PyResult.ok none, [WOp.createTable tableName])
        else (PyResult.ok (some ()), [WOp.createTable tableName])
    | ClientResp.exn _ => (PyResult.ok none, [WOp.createTable tableName])
  else (PyResult.ok none, [])

/-- Decides whether a `PyResult` is a propagated exception. -/
def pyRaises : PyResult (Option Unit) → Bool
  | PyResult.exn _ => true
  | PyResult.ok _ => false

/-- A toy warehouse state (the set of existing table names) used to express
"calling `create_table` twice with identical arguments".  When the table
exists the client either returns a result with `already_existed = True` or
raises an "already exists" error; `style` selects which. -/
def warehouseCreateResp (tables : List String) (name : String) (style : Bool) : ClientResp :=
  if tables.contains name then
    (if style then ClientResp.ok (some true) else ClientResp.exn "table already exists")
  else ClientResp.ok (some false)

/-- The warehouse state after a `create_table` call: the table exists. -/
def warehouseAfterCreate (tables : List String) (name : String) : List String :=
  if tables.contains name then tables else name :: tables

/-- Shallow embedding of `DuneSyncBase.clear_table_data` (dune_utils.py
118-146).  `apiKey` is `os.getenv('DUNE_API_KEY')`; `clearResp` is the HTTP
status of the POST to the clear endpoint, or `none` when the request
raises.  Returns `True` exactly on status 200. -/
def clear_table_data (apiKey : Option String) (clearResp : Option Nat) (tableName : String) :
    Bool × List WOp :=
  match apiKey with
  | none => (false, [])
  | some k =>
      if k = "" then (false, [])
      else
        match clearResp with
        | some status => (status == 200, [WOp.clearTable tableName])
        | none => (false, [WOp.clearTable tableName])

/-- Shallow embedding of `DuneSyncBase.insert_data_to_dune` (dune_utils.py
148-188).  When no client is configured it warns and returns `False`
without any remote call; otherwise it serializes the rows to NDJSON and
calls the client's `insert_table`, returning `False` if that raises
(`insertOk = false`). -/
def insert_data_to_dune (duneAvailable : Bool) (insertOk : Bool) (tableName : String)
    (data : List Row) : Bool × List WOp :=
  if duneAvailable then (insertOk, [WOp.insertRows tableName data])
  else (false, [])

/-- JSON serialization of one cell, as `json.dumps` renders the dict values
built by the source (strings, integers, `None`). -/
def cellToJson : Cell → String
  | Cell.str s => "\"" ++ s ++ "\""
  | Cell.int n => toString n
  | Cell.null => "null"

/-- JSON serialization of one row, matching `json.dumps(row)` with its
default separators. -/
def rowToJson (r : Row) : String :=
  "\x7b" ++ String.intercalate ", " (r.map fun p => "\"" ++ p.1 ++ "\": " ++ cellToJson p.2) ++ "\x7d"

/-- The NDJSON payload `insert_data_to_dune` builds before transport. -/
def ndjsonOf (rows : List Row) : String :=
  String.intercalate "\n" (rows.map rowToJson)

end DuneUtils

namespace SupMetricsSync

/-- Shallow embedding of `SupMetricsSync.get_table_schema`
(sup_metrics_sync.py 45-60): the fixed 11-column metrics schema. -/
def get_table_schema : List SchemaCol :=
  [⟨"timestamp", "timestamp", false⟩,
   ⟨"lockers", "bigint", true⟩,
   ⟨"staked", "bigint", true⟩,
   ⟨"lp", "bigint", true⟩,
   ⟨"fontaines", "bigint", true⟩,
   ⟨"community_charge", "bigint", true⟩,
   ⟨"investors_team_locked", "bigint", true⟩,
   ⟨"dao_treasury", "bigint", true⟩,
   ⟨"foundation_treasury", "bigint", true⟩,
   ⟨"other", "bigint", true⟩,
   ⟨"total_supply", "bigint", true⟩]

/-- A CSV file as seen through `csv.DictReader`: a header (field names) and
the data rows (cells as raw strings). -/
structure CsvFile where
  header : List String
  rows : List (List String)
  deriving DecidableEq, Repr

/-- State of the preset CSV path `sup_metrics_preset.csv`: the file is
absent, present but unreadable (`open` raises), or present with content. -/
inductive PresetFS where
  | absent
  | unreadable
  | content (f : CsvFile)
  deriving DecidableEq, Repr

/-- Set-equality of two lists of column names, as the source's comparison
of `set(reader.fieldnames)` with the set of schema names. -/
def listSetEq (a b : List String) : Bool :=
  a.all b.contains && b.all a.contains

/-- Shallow embedding of `SupMetricsSync.validate_csv_structure`
(sup_metrics_sync.py 62-80): reads the CSV header and compares its column
set with the schema's field-name set; any exception (absent or unreadable
file) yields `False`.  NOTE: this method is defined in the source but never
called by any other code in the repository. -/
def validate_csv_structure (file : PresetFS) (expectedSchema : List SchemaCol) : Bool :=
  match file with
  | PresetFS.content f => listSetEq f.header (expectedSchema.map SchemaCol.name)
  | _ => false

/-- One cell of a preset row, per the body of `load_preset_csv_data`
(sup_metrics_sync.py 88-97): `timestamp` values stay strings; other values
become `int(value)` when non-empty and non-whitespace, else `None`.
`int(value)` raising (non-numeric text) propagates, modelled by `none`. -/
def processPresetCell (key value : String) : Option Cell :=
  if key = "timestamp" then some (Cell.str value)
  else if value ≠ "" ∧ pyStrip value ≠ "" then
    match pyInt value with
    | some n => some (Cell.int n)
    | none => none
  else some Cell.null

/-- One preset row: `csv.DictReader` pairs the header with the row's cells;
a failing cell conversion aborts the whole load. -/
def processPresetRow (header : List String) (vals : List String) : Option Row :=
  (header.zip vals).mapM fun p => (processPresetCell p.1 p.2).map fun c => (p.1, c)

/-- Shallow embedding of `SupMetricsSync.load_preset_csv_data`
(sup_metrics_sync.py 82-104): parses every row; any exception (unreadable
file, failing `int(...)`) is caught and mapped to `None`. -/
def load_preset_csv_data (file : PresetFS) : Option (List Row) :=
  match file with
  | PresetFS.absent => none
  | PresetFS.unreadable => none
  | PresetFS.content f => f.rows.mapM (processPresetRow f.header)

/-- The decoded metrics API response: `hasData` models the truthiness of
the decoded JSON (`if not data`), `metrics` models
`data.get("metrics", \x7b\x7d)`. -/
structure ApiResponse where
  hasData : Bool
  metrics : List (String × Cell)
  deriving DecidableEq, Repr

/-- Environment of one metrics-sync cycle: configuration and the behaviour
of each remote collaborator (Dune client, clear endpoint, metrics API,
preset file). -/
structure MEnv where
  duneAvailable : Bool
  createResp : DuneUtils.ClientResp
  apiKey : Option String
  clearResp : Option Nat
  insertOk : Bool
  presetFile : PresetFS
  initFlag : Option String
  fetchResp : Option ApiResponse
  nowTs : String
  deriving DecidableEq, Repr

/-- `MEnv` with the preset file replaced (used to compare runs that differ
only in the preset file's state). -/
def withPreset (env : MEnv) (p : PresetFS) : MEnv :=
  ⟨env.duneAvailable, env.createResp, env.apiKey, env.clearResp, env.insertOk,
   p, env.initFlag, env.fetchResp, env.nowTs⟩

/-- Shallow embedding of `SupMetricsSync._load_preset_data`
(sup_metrics_sync.py 161-183): missing file is success; a load returning a
falsy value (`None` from a parse error, or an empty list) is failure; an
otherwise loaded preset is inserted without any structural validation
(`validate_csv_structure` is never invoked), and the insert's outcome is
returned. -/
def load_preset_data (env : MEnv) (tableName : String) : Bool × List DuneUtils.WOp :=
  match env.presetFile with
  | PresetFS.absent => (true, [])
  | fs =>
      match load_preset_csv_data fs with
      | none => (false, [])
      | some [] => (false, [])
      | some rows => DuneUtils.insert_data_to_dune env.duneAvailable env.insertOk tableName rows

/-- Shallow embedding of `SupMetricsSync._initialize_table`
(sup_metrics_sync.py 121-140): create the table with the result ignored
(source comment: "allow failure if exists"), abort with `False` if the
clear fails, else return the preset load's outcome. -/
def initialize_table (env : MEnv) (tableName : String) : Bool × List DuneUtils.WOp :=
  let c := DuneUtils.create_table env.duneAvailable env.createResp tableName
  let cl := DuneUtils.clear_table_data env.apiKey env.clearResp tableName
  if cl.1 then
    let ld := load_preset_data env tableName
    (ld.1, c.2 ++ cl.2 ++ ld.2)
  else (false, c.2 ++ cl.2)

/-- `metrics.get(key)` on the decoded metrics dict: an absent key and a
present JSON `null` both yield Python `None` (`Cell.null`). -/
def metricsGet (m : List (String × Cell)) (k : String) : Cell :=
  (m.lookup k).getD Cell.null

/-- The row built by `SupMetricsSync._insert_current_data`
(sup_metrics_sync.py 190-202): upstream camelCase metric names are mapped
to the warehouse column names. -/
def mkCurrentRow (ts : String) (m : List (String × Cell)) : Row :=
  [("timestamp", Cell.str ts),
   ("lockers", metricsGet m "reserveBalances"),
   ("staked", metricsGet m "stakedSup"),
   ("lp", metricsGet m "lpSup"),
   ("fontaines", metricsGet m "streamingOut"),
   ("community_charge", metricsGet m "communityCharge"),
   ("investors_team_locked", metricsGet m "investorsTeamLocked"),
   ("dao_treasury", metricsGet m "daoTreasury"),
   ("foundation_treasury", metricsGet m "foundationTreasury"),
   ("other", metricsGet m "other"),
   ("total_supply", metricsGet m "totalSupply")]

/-- Shallow embedding of `SupMetricsSync._insert_current_data`
(sup_metrics_sync.py 185-214): builds the single current row and inserts
it; `insert_data_to_dune` catches its own exceptions, so the surrounding
`try` never fires. -/
def insert_current_data (env : MEnv) (tableName : String) (metrics : List (String × Cell)) :
    Bool × List DuneUtils.WOp :=
  DuneUtils.insert_data_to_dune env.duneAvailable env.insertOk tableName
    [mkCurrentRow env.nowTs metrics]

/-- Shallow embedding of `SupMetricsSync._add_latest_entry`
(sup_metrics_sync.py 142-159): fetch the metrics (a `WOp.fetchMetrics`
effect); a failed or falsy response fails the cycle, otherwise the current
row is inserted. -/
def add_latest_entry (env : MEnv) (tableName : String) : Bool × List DuneUtils.WOp :=
  match env.fetchResp with
  | none => (false, [DuneUtils.WOp.fetchMetrics])
  | some d =>
      if d.hasData then
        let r := insert_current_data env tableName d.metrics
        (r.1, DuneUtils.WOp.fetchMetrics :: r.2)
      else (false, [DuneUtils.WOp.fetchMetrics])

/-- Shallow embedding of `SupMetricsSync.process_metrics`
(sup_metrics_sync.py 106-119): a truthy `SUP_METRICS_INIT` routes the
cycle into table initialization, otherwise into normal append mode. -/
def process_metrics (env : MEnv) (tableName : String) : Bool × List DuneUtils.WOp :=
  if pyTruthyOptStr env.initFlag then initialize_table env tableName
  else add_latest_entry env tableName

end SupMetricsSync

namespace SuperTokenSync

/-- A token as returned by the subgraph query
(`tokens \x7b id symbol name \x7d`); any field may be absent. -/
structure Token where
  id : Option String
  symbol : Option String
  name : Option String
  deriving DecidableEq, Repr

/-- A network descriptor from the Superfluid metadata JSON; only the fields
the source reads are modelled. -/
structure Network where
  chainId : Nat
  name : String
  isTestnet : Option Bool
  duneName : Option String
  deriving DecidableEq, Repr

/-- One holder record from the holders API; the source reads each field
with `holder.get(..., '')`. -/
structure Holder where
  address : Option String
  balance : Option String
  netFlowRate : Option String
  deriving DecidableEq, Repr

/-- Behaviour of the holders REST endpoint for one token. -/
inductive HoldersResp where
  | http404
  | httpErr (code : Nat)
  | apiError (msg : String)
  | exc (msg : String)
  | ok (holders : List Holder)
  deriving DecidableEq, Repr

/-- Behaviour of a network's subgraph endpoint for the tokens query. -/
inductive SubgraphResp where
  | httpErr (code : Nat)
  | gqlErrors
  | exc (msg : String)
  | ok (tokens : List Token)
  deriving DecidableEq, Repr

/-- An observable effect of the holders sync: remote calls, file creation,
upload/archive, and the log lines the claims talk about. -/
inductive HEffect where
  | holderFetch (tokenAddr : String) (chainId : Nat)
  | fileCreate (path : String)
  | upload (tableName : String)
  | archive (path : String)
  | logInfo (msg : String)
  | logWarn (msg : String)
  | logError (msg : String)
  deriving DecidableEq, Repr

/-- Shallow embedding of `SuperTokenSync.get_networks`
(supertoken_holders_sync.py 44-52): `none` models any request/JSON failure
(caught, returning `[]`); otherwise the list is filtered by
`not net.get("isTestnet", True)`. -/
def get_networks (resp : Option (List Network)) : List Network :=
  match resp with
  | none => []
  | some nets => nets.filter fun n => !(n.isTestnet.getD true)

/-- Shallow embedding of `SuperTokenSync.get_tokens`
(supertoken_holders_sync.py 54-80): every failure mode (non-200 status,
GraphQL errors, exception) is caught and yields `[]`. -/
def get_tokens (resp : SubgraphResp) : List Token :=
  match resp with
  | SubgraphResp.ok ts => ts
  | _ => []

/-- Shallow embedding of `SuperTokenSync.get_holders`
(supertoken_holders_sync.py 82-107): 404, other non-200 statuses, an
API-reported error and exceptions all yield `None`. -/
def get_holders (resp : HoldersResp) : Option (List Holder) :=
  match resp with
  | HoldersResp.ok hs => some hs
  | _ => none

/-- The symbol check of `process_token` (supertoken_holders_sync.py 120):
`not token_symbol or token_symbol.strip() == ""`. -/
def symbolInvalid (t : Token) : Bool :=
  pyFalsyStr t.symbol || pyStrip (t.symbol.getD "") == ""

/-- `network.get("duneName", f"chain_...")` as read inside `process_token`
(supertoken_holders_sync.py 125). -/
def duneNameOf (net : Network) : String :=
  net.duneName.getD ("chain_" ++ toString net.chainId)

/-- The per-token CSV path `data/.._holders.csv`
(supertoken_holders_sync.py 144). -/
def csvPathOf (t : Token) (net : Network) : String :=
  "data/" ++ duneNameOf net ++ "_" ++ (t.symbol.getD "").toLower ++ "_holders.csv"

/-- The per-token Dune table name (supertoken_holders_sync.py 162). -/
def tableNameOf (t : Token) (net : Network) : String :=
  duneNameOf net ++ "_" ++ (t.symbol.getD "").toLower ++ "_holders"

/-- Environment of one `process_token` call: the holders endpoint's
behaviour and the local/remote outcomes of the later steps. -/
structure TokenEnv where
  holdersResp : HoldersResp
  csvWriteOk : Bool
  duneAvailable : Bool
  uploadOk : Bool
  archiveOk : Bool
  deriving DecidableEq, Repr

/-- Shallow embedding of `SuperTokenSync.process_token`
(supertoken_holders_sync.py 109-184).  The Python method returns `None`;
its observable behaviour is the emitted effect list, in source order:
validation short-circuits, holder fetch, CSV creation, Dune upload (only
when a client is configured), archive on upload success. -/
def process_token (e : TokenEnv) (t : Token) (net : Network) : List HEffect :=
  if pyFalsyStr t.id then
    [HEffect.logWarn "Skipping token with missing address"]
  else if symbolInvalid t then
    [HEffect.logWarn ("Skipping token with missing symbol: " ++ t.id.getD "")]
  else
    let addr := t.id.getD ""
    let sym := t.symbol.getD ""
    let pre := [HEffect.logInfo ("Processing " ++ sym ++ " (" ++ addr ++ ") on " ++ net.name),
                HEffect.holderFetch addr net.chainId]
    match get_holders e.holdersResp with
    | none => pre ++ [HEffect.logWarn ("Failed to get holders data for " ++ sym ++ " - skipping")]
    | some holders =>
        if holders.isEmpty then pre ++ [HEffect.logInfo ("No holders for " ++ sym)]
        else
          let pre2 := pre ++ [HEffect.logInfo ("Found " ++ toString holders.length ++ " holders for " ++ sym)]
          let csvPath := csvPathOf t net
          if e.csvWriteOk then
            let mid := pre2 ++ [HEffect.fileCreate csvPath,
                                HEffect.logInfo ("Created CSV: " ++ csvPath)]
            if e.duneAvailable then
              let tbl := tableNameOf t net
              if e.uploadOk then
                mid ++ [HEffect.upload tbl, HEffect.logInfo ("Uploaded " ++ tbl ++ " to Dune")] ++
                  (if e.archiveOk then
                     [HEffect.archive csvPath, HEffect.logInfo ("Archived: " ++ csvPath)]
                   else [HEffect.logError ("Failed to archive " ++ sym)])
              else mid ++ [HEffect.upload tbl, HEffect.logError ("Upload failed for " ++ sym)]
            else mid
          else pre2 ++ [HEffect.logError ("Failed to create CSV for " ++ sym)]

/-- Modelled from the spec: the revision under src/ has no dry-run flag;
the spec's process configuration lists a "dry run: skip publish" flag that
"suppresses the publish call but still runs fetch/transform and logs what
would have happened".  This is `process_token` with that flag: when
`dryRun` is set the upload/archive block is replaced by a log line, and
with `dryRun = false` it coincides with the source (`process_token_dry_off`
below). -/
def process_token_dry (dryRun : Bool) (e : TokenEnv) (t : Token) (net : Network) : List HEffect :=
  if pyFalsyStr t.id then
    [HEffect.logWarn "Skipping token with missing address"]
  else if symbolInvalid t then
    [HEffect.logWarn ("Skipping token with missing symbol: " ++ t.id.getD "")]
  else
    let addr := t.id.getD ""
    let sym := t.symbol.getD ""
    let pre := [HEffect.logInfo ("Processing " ++ sym ++ " (" ++ addr ++ ") on " ++ net.name),
                HEffect.holderFetch addr net.chainId]
    match get_holders e.holdersResp with
    | none => pre ++ [HEffect.logWarn ("Failed to get holders data for " ++ sym ++ " - skipping")]
    | some holders =>
        if holders.isEmpty then pre ++ [HEffect.logInfo ("No holders for " ++ sym)]
        else
          let pre2 := pre ++ [HEffect.logInfo ("Found " ++ toString holders.length ++ " holders for " ++ sym)]
          let csvPath := csvPathOf t net
          if e.csvWriteOk then
            let mid := pre2 ++ [HEffect.fileCreate csvPath,
                                HEffect.logInfo ("Created CSV: " ++ csvPath)]
            if dryRun then
              mid ++ [HEffect.logInfo ("Dry run: would have uploaded " ++ tableNameOf t net)]
            else if e.duneAvailable then
              let tbl := tableNameOf t net
              if e.uploadOk then
                mid ++ [HEffect.upload tbl, HEffect.logInfo ("Uploaded " ++ tbl ++ " to Dune")] ++
                  (if e.archiveOk then
                     [HEffect.archive csvPath, HEffect.logInfo ("Archived: " ++ csvPath)]
                   else [HEffect.logError ("Failed to archive " ++ sym)])
              else mid ++ [HEffect.upload tbl, HEffect.logError ("Upload failed for " ++ sym)]
            else mid
          else pre2 ++ [HEffect.logError ("Failed to create CSV for " ++ sym)]

/-- Environment of one holders-sync cycle. -/
structure SyncEnv where
  networksResp : Option (List Network)
  debug : Bool
  subgraphFor : Network → SubgraphResp
  tokenEnvFor : Network → Token → TokenEnv

/-- The per-network body of `sync_once` (supertoken_holders_sync.py
198-213): skip networks with a falsy `duneName`, else fetch the token list
and process every token serially. -/
def processNetwork (env : SyncEnv) (net : Network) : List HEffect :=
  if pyFalsyStr net.duneName then
    [HEffect.logInfo ("Skipping " ++ net.name ++ " - no Dune support")]
  else
    HEffect.logInfo ("Processing " ++ net.name) ::
      ((get_tokens (env.subgraphFor net)).map fun t =>
        process_token (env.tokenEnvFor net t) t net).flatten

/-- Shallow embedding of `SuperTokenSync.sync_once`
(supertoken_holders_sync.py 186-215): enumerate mainnet networks (truncated
to one in debug mode) and run the per-network body for each. -/
def sync_once (env : SyncEnv) : List HEffect :=
  let networks := get_networks env.networksResp
  let networks2 := if env.debug then networks.take 1 else networks
  (networks2.map (processNetwork env)).flatten

/-- Number of Dune upload invocations in a trace. -/
def countUploads (es : List HEffect) : Nat :=
  es.countP fun e => match e with | HEffect.upload _ => true | _ => false

/-- Modelled from the spec: `CycleResult` ("aggregate outcome of one
orchestrator pass — counts of work units attempted/succeeded/...") does not
exist in the code, which reports per-unit outcomes only through logs; its
`succeeded` count is realized here as the number of successful publish
operations observable in the cycle's effect trace. -/
def cycleSucceededCount (trace : List HEffect) : Nat := countUploads trace

/-- A transport failure of the holders fetch for one unit: the endpoint
answered non-200, reported an error, or the request raised. -/
def isTransportFail (e : TokenEnv) : Bool := (get_holders e.holdersResp).isNone

/-- Valid identifying fields: the unit passes both short-circuit checks. -/
def validFields (t : Token) : Bool := !pyFalsyStr t.id && !symbolInvalid t

/-- A work unit that publishes successfully: valid fields, a non-empty
holders response, CSV creation and upload both succeed. -/
def goodUnit (t : Token) (e : TokenEnv) : Bool :=
  validFields t &&
    (match get_holders e.holdersResp with
     | some hs => !hs.isEmpty
     | none => false) &&
    e.csvWriteOk && e.duneAvailable && e.uploadOk

end SuperTokenSync

namespace Daemon

/-- Outcome of one `sync_once` call inside the daemon loop. -/
inductive CycleOutcome where
  | finishes (success : Bool)
  | raisesExc (msg : String)
  | interrupt
  deriving DecidableEq, Repr

/-- Observable event of the daemon loop. -/
inductive RunEvent where
  | cycleStart
  | sleep
  | loggedError (msg : String)
  | loggedInterrupt
  | stopped
  deriving DecidableEq, Repr

/-- Shallow embedding of the `run` methods (sup_metrics_sync.py 229-245 and
supertoken_holders_sync.py 217-233, structurally identical): a
`try ... while True: sync_once(); sleep ... except` where both `except`
clauses sit OUTSIDE the `while`.  A cycle that finishes (with either
result) is followed by a sleep and the next cycle; an exception or a
keyboard interrupt leaves the loop, is logged, and the final "stopped" log
runs.  The input list gives the outcome of each successive cycle; an empty
remainder models the loop still running. -/
def runLoop : List CycleOutcome → List RunEvent
  | [] => []
  | o :: rest =>
      match o with
      | CycleOutcome.finishes _ => RunEvent.cycleStart :: RunEvent.sleep :: runLoop rest
      | CycleOutcome.raisesExc m => [RunEvent.cycleStart, RunEvent.loggedError m, RunEvent.stopped]
      | CycleOutcome.interrupt => [RunEvent.cycleStart, RunEvent.loggedInterrupt, RunEvent.stopped]

/-- Number of cycle starts in a daemon trace. -/
def countStarts (es : List RunEvent) : Nat :=
  es.countP fun e => match e with | RunEvent.cycleStart => true | _ => false

end Daemon

/-- The sample metrics payload of the round-trip property:
`"metrics": reserveBalances = 100, stakedSup = null`. -/
def sampleMetrics : List (String × Cell) :=
  [("reserveBalances", Cell.int 100), ("stakedSup", Cell.null)]

/-- A preset CSV whose column set lacks nine of the schema's eleven
columns, with one data row. -/
def badPresetCsv : SupMetricsSync.CsvFile :=
  ⟨["timestamp", "lockers"], [["2024-01-01", "5"]]⟩

/-- Cycle environment for the preset-mismatch scenario: init flag set,
client configured, clear succeeds, insert succeeds, mismatched preset. -/
def envC1 : SupMetricsSync.MEnv :=
  ⟨true, DuneUtils.ClientResp.ok (some true), some "key", some 200, true,
   SupMetricsSync.PresetFS.content badPresetCsv, some "true", none, "2025-01-01T00:00:00"⟩

/-- Cycle environment where the client's `create_table` raises an error
that is not "already exists" while every later step succeeds. -/
def envC3 : SupMetricsSync.MEnv :=
  ⟨true, DuneUtils.ClientResp.exn "permission denied", some "key", some 200, true,
   SupMetricsSync.PresetFS.absent, some "true", none, "2025-01-01T00:00:00"⟩

/-- Cycle environment with an existing, readable, header-only preset file. -/
def envC10 : SupMetricsSync.MEnv :=
  ⟨true, DuneUtils.ClientResp.ok (some true), some "key", some 200, true,
   SupMetricsSync.PresetFS.content ⟨["timestamp"], []⟩, some "true", none, "2025-01-01T00:00:00"⟩

/-- A token with a present address but a whitespace-only symbol. -/
def tokenC7 : SuperTokenSync.Token := ⟨some "0xabc", some "  ", some "Some Name"⟩

/-- An arbitrary token environment (the short-circuit happens before any
of its fields is consulted). -/
def envTokC7 : SuperTokenSync.TokenEnv :=
  ⟨SuperTokenSync.HoldersResp.ok [⟨some "0x1", some "5", some "0"⟩], true, true, true, true⟩

/-- A mainnet network with a Dune destination name. -/
def netC7 : SuperTokenSync.Network := ⟨1, "eth", some false, some "ethereum"⟩

/-- A fully valid token (would publish successfully). -/
def tokenC8 : SuperTokenSync.Token := ⟨some "0xfff", some "FOO", some "Foo Token"⟩

/-- Token environment in which every step succeeds. -/
def envTokC8 : SuperTokenSync.TokenEnv :=
  ⟨SuperTokenSync.HoldersResp.ok [⟨some "0x1", some "5", some "0"⟩], true, true, true, true⟩

/-- A token whose holders fetch succeeds. -/
def goodTok : SuperTokenSync.Token := ⟨some "0xaaa", some "GOOD", none⟩

/-- A token whose holders fetch fails with HTTP 500 (transport error). -/
def badTok : SuperTokenSync.Token := ⟨some "0xbbb", some "BAD", none⟩

/-- Per-token environments for the two-unit cycle: `badTok` hits a
transport error, every other token succeeds end-to-end. -/
def envFC4 : SuperTokenSync.Token → SuperTokenSync.TokenEnv := fun t =>
  if t.id = some "0xbbb" then ⟨SuperTokenSync.HoldersResp.httpErr 500, true, true, true, true⟩
  else ⟨SuperTokenSync.HoldersResp.ok [⟨some "0x1", some "1", some "0"⟩], true, true, true, true⟩

/-- C6: calling `create_table` twice with identical arguments returns the
"already exists" outcome (`none`, not an error) the second time — whether
the warehouse client reports the existing table through a result object
with `already_existed = True` or by raising an "already exists" error,
the wrapper remaps it to the same non-raising result — and for every
client behaviour whatsoever `create_table` never raises to its caller. -/
theorem C6_create_table_already_exists (tables : List String) (name : String) (style d : Bool)
    (resp : DuneUtils.ClientResp) :
    (DuneUtils.create_table true
        (DuneUtils.warehouseCreateResp (DuneUtils.warehouseAfterCreate tables name) name style)
        name).1 = PyResult.ok none
    ∧ DuneUtils.pyRaises (DuneUtils.create_table d resp name).1 = false := by
  constructor
  · have hc : (DuneUtils.warehouseAfterCreate tables name).contains name = true := by
      unfold DuneUtils.warehouseAfterCreate
      split
      · assumption
      · simp
    unfold DuneUtils.warehouseCreateResp
    rw [hc]
    cases style <;> simp [DuneUtils.create_table]
  · unfold DuneUtils.create_table
    cases d <;> cases resp <;> simp [DuneUtils.pyRaises]
    rename_i ae
    cases h : ae.getD true <;> simp [DuneUtils.pyRaises]

/-- C9: a network descriptor is in the enumerated list returned by
`get_networks` iff its `isTestnet` field is present and `false`; a
descriptor with `isTestnet` absent defaults to `True` under
`net.get("isTestnet", True)` and is excluded as a testnet. -/
theorem C9_networks_filter (nets : List SuperTokenSync.Network) (net : SuperTokenSync.Network) :
    net ∈ SuperTokenSync.get_networks (some nets) ↔
      net ∈ nets ∧ net.isTestnet = some false := by
  unfold SuperTokenSync.get_networks
  rw [List.mem_filter]
  refine and_congr_right fun _ => ?_
  cases h : net.isTestnet with
  | none => simp [h]
  | some b => cases b <;> simp [h]

/-- C2 counterexample: schedule a first cycle that raises and a second
cycle behind it; the daemon loop neither sleeps after the failed cycle nor
starts the second one, refuting "the loop then proceeds to sleep and runs
another cycle at the next interval". -/
theorem C2_counterexample :
    ¬ (Daemon.RunEvent.sleep ∈
         Daemon.runLoop [Daemon.CycleOutcome.raisesExc "boom", Daemon.CycleOutcome.finishes true]
       ∧ Daemon.countStarts
           (Daemon.runLoop [Daemon.CycleOutcome.raisesExc "boom",
                            Daemon.CycleOutcome.finishes true]) = 2) := by
  decide

/-- C2 (amended): an exception escaping a cycle is caught by the handler
around the loop and logged, but because the `try/except` encloses the
whole `while` loop, the daemon then stops cleanly rather than sleeping and
retrying: whatever cycles were still scheduled, the trace ends at the
logged error and the shutdown log, and the exception never propagates. -/
theorem C2_exception_stops_daemon (m : String) (rest : List Daemon.CycleOutcome) :
    Daemon.runLoop (Daemon.CycleOutcome.raisesExc m :: rest)
      = [Daemon.RunEvent.cycleStart, Daemon.RunEvent.loggedError m, Daemon.RunEvent.stopped] := rfl

/-- C5 counterexample: the row built from the sample payload
`metrics = (reserveBalances 100, stakedSup null)` has no `reserve_balances`
and no `staked_sup` field at all — the code's column names for these
metrics are `lockers` and `staked`. -/
theorem C5_counterexample :
    (SupMetricsSync.mkCurrentRow "2025-01-01T00:00:00" sampleMetrics).lookup "reserve_balances"
        = none
    ∧ (SupMetricsSync.mkCurrentRow "2025-01-01T00:00:00" sampleMetrics).lookup "staked_sup"
        = none := by
  decide

set_option maxRecDepth 8192 in
/-- C5 (amended): from the sample payload the produced row's `lockers`
field (the code's column for `reserveBalances`) equals 100 and its
`staked` field (the column for `stakedSup`) is null; both columns are
declared nullable in the table schema, and the row's NDJSON record
serializes `lockers` to `100` and `staked` to `null`. -/
theorem C5_row_roundtrip :
    (SupMetricsSync.mkCurrentRow "2025-01-01T00:00:00" sampleMetrics).lookup "lockers"
        = some (Cell.int 100)
    ∧ (SupMetricsSync.mkCurrentRow "2025-01-01T00:00:00" sampleMetrics).lookup "staked"
        = some Cell.null
    ∧ (SupMetricsSync.get_table_schema.find? fun c => c.name == "lockers").map SchemaCol.nullable
        = some true
    ∧ (SupMetricsSync.get_table_schema.find? fun c => c.name == "staked").map SchemaCol.nullable
        = some true
    ∧ DuneUtils.rowToJson (SupMetricsSync.mkCurrentRow "2025-01-01T00:00:00" sampleMetrics)
        = "\x7b\"timestamp\": \"2025-01-01T00:00:00\", \"lockers\": 100, \"staked\": null, \"lp\": null, \"fontaines\": null, \"community_charge\": null, \"investors_team_locked\": null, \"dao_treasury\": null, \"foundation_treasury\": null, \"other\": null, \"total_supply\": null\x7d" := by
  exact ⟨by decide, by decide, by decide, by decide, rfl⟩

/-- C1 (code bug): a preset CSV whose column set lacks nine of the
schema's eleven columns is rejected by the repository's own
`validate_csv_structure`, yet `_load_preset_data` never invokes that
check: it parses the mismatched file, calls the warehouse insert with the
mismatched rows, and reports success — instead of returning failure
without calling insert. -/
theorem C1_preset_mismatch_inserted :
    SupMetricsSync.validate_csv_structure (SupMetricsSync.PresetFS.content badPresetCsv)
        SupMetricsSync.get_table_schema = false
    ∧ (SupMetricsSync.load_preset_data envC1 "sup_metrics_history").1 = true
    ∧ DuneUtils.WOp.insertRows "sup_metrics_history"
          [[("timestamp", Cell.str "2024-01-01"), ("lockers", Cell.int 5)]]
        ∈ (SupMetricsSync.load_preset_data envC1 "sup_metrics_history").2 := by
  decide

/-- C10: a preset CSV that exists and parses successfully but holds zero
data rows makes the preset-load step report failure without any insert
call — the very same result as a file whose load raised — and, whenever
the clear step succeeded, the whole initialization reports failure. -/
theorem C10_empty_preset_fails (hdr : List String) (env : SupMetricsSync.MEnv) (tbl : String)
    (hp : env.presetFile = SupMetricsSync.PresetFS.content ⟨hdr, []⟩) :
    SupMetricsSync.load_preset_csv_data env.presetFile = some []
    ∧ SupMetricsSync.load_preset_data env tbl = (false, [])
    ∧ SupMetricsSync.load_preset_data env tbl
        = SupMetricsSync.load_preset_data
            (SupMetricsSync.withPreset env SupMetricsSync.PresetFS.unreadable) tbl
    ∧ ((DuneUtils.clear_table_data env.apiKey env.clearResp tbl).1 = true →
        (SupMetricsSync.initialize_table env tbl).1 = false) := by
  have h1 : SupMetricsSync.load_preset_csv_data env.presetFile = some [] := by
    rw [hp]; rfl
  have h2 : SupMetricsSync.load_preset_data env tbl = (false, []) := by
    unfold SupMetricsSync.load_preset_data
    rw [hp]
    rfl
  refine ⟨h1, h2, ?_, ?_⟩
  · rw [h2]; rfl
  · intro hc
    unfold SupMetricsSync.initialize_table
    simp [hc, h2]

/-- Witness for C10 at a concrete environment: the header-only preset file
exists, and the preset-load step fails. -/
theorem C10_witness :
    envC10.presetFile = SupMetricsSync.PresetFS.content ⟨["timestamp"], []⟩
    ∧ SupMetricsSync.load_preset_data envC10 "sup_metrics_history" = (false, []) :=
  ⟨rfl, (C10_empty_preset_fails ["timestamp"] envC10 "sup_metrics_history" rfl).2.1⟩

/-- C7: a work unit whose address is missing or empty, or whose symbol is
missing, empty or whitespace-only, is skipped before any network call:
the trace of `process_token` contains no holder fetch, no file creation
and no upload, for every environment. -/
theorem C7_invalid_unit_short_circuits (e : SuperTokenSync.TokenEnv)
    (t : SuperTokenSync.Token) (net : SuperTokenSync.Network)
    (h : pyFalsyStr t.id = true ∨ SuperTokenSync.symbolInvalid t = true) :
    (∀ a c, SuperTokenSync.HEffect.holderFetch a c ∉ SuperTokenSync.process_token e t net)
    ∧ (∀ p, SuperTokenSync.HEffect.fileCreate p ∉ SuperTokenSync.process_token e t net)
    ∧ (∀ tb, SuperTokenSync.HEffect.upload tb ∉ SuperTokenSync.process_token e t net) := by
  rcases h with h1 | h2
  · simp [SuperTokenSync.process_token, h1]
  · cases hid : pyFalsyStr t.id
    · simp [SuperTokenSync.process_token, hid, h2]
    · simp [SuperTokenSync.process_token, hid]

/-- Witness for C7: a token with a whitespace-only symbol produces no
upload (nor any other effect past the warning). -/
theorem C7_witness :
    SuperTokenSync.symbolInvalid tokenC7 = true
    ∧ (∀ tb, SuperTokenSync.HEffect.upload tb ∉
        SuperTokenSync.process_token envTokC7 tokenC7 netC7) :=
  ⟨by decide, (C7_invalid_unit_short_circuits envTokC7 tokenC7 netC7 (Or.inr (by decide))).2.2⟩

/-- C8 (dry-run flag modelled from the spec; the revision under src/ has
no such flag): with the dry-run flag set, a unit that would otherwise
publish successfully never triggers the warehouse upload, while the
holder fetch, the CSV transform and their log lines still execute, and a
log records what would have been uploaded. -/
theorem C8_dry_run_suppresses_upload (e : SuperTokenSync.TokenEnv)
    (t : SuperTokenSync.Token) (net : SuperTokenSync.Network)
    (hg : SuperTokenSync.goodUnit t e = true) :
    (∀ tb, SuperTokenSync.HEffect.upload tb ∉ SuperTokenSync.process_token_dry true e t net)
    ∧ SuperTokenSync.HEffect.holderFetch (t.id.getD "") net.chainId
        ∈ SuperTokenSync.process_token_dry true e t net
    ∧ SuperTokenSync.HEffect.fileCreate (SuperTokenSync.csvPathOf t net)
        ∈ SuperTokenSync.process_token_dry true e t net
    ∧ SuperTokenSync.HEffect.logInfo ("Created CSV: " ++ SuperTokenSync.csvPathOf t net)
        ∈ SuperTokenSync.process_token_dry true e t net
    ∧ SuperTokenSync.HEffect.logInfo
          ("Dry run: would have uploaded " ++ SuperTokenSync.tableNameOf t net)
        ∈ SuperTokenSync.process_token_dry true e t net := by
  unfold SuperTokenSync.goodUnit at hg
  simp only [Bool.and_eq_true] at hg
  obtain ⟨⟨⟨⟨hv, hh⟩, hcsv⟩, hdune⟩, hup⟩ := hg
  unfold SuperTokenSync.validFields at hv
  simp only [Bool.and_eq_true, Bool.not_eq_true'] at hv
  obtain ⟨hid, hsym⟩ := hv
  cases hres : SuperTokenSync.get_holders e.holdersResp with
  | none => rw [hres] at hh; simp at hh
  | some hs =>
      rw [hres] at hh
      simp only [Bool.not_eq_true'] at hh
      simp [SuperTokenSync.process_token_dry, hid, hsym, hres, hh, hcsv]

/-- Witness for C8: a concrete fully-valid unit under dry run performs no
upload. -/
theorem C8_witness :
    SuperTokenSync.goodUnit tokenC8 envTokC8 = true
    ∧ (∀ tb, SuperTokenSync.HEffect.upload tb ∉
        SuperTokenSync.process_token_dry true envTokC8 tokenC8 netC7) :=
  ⟨by decide, (C8_dry_run_suppresses_upload envTokC8 tokenC8 netC7 (by decide)).1⟩

/-- Sanity check of the dry-run model: with the flag off it is exactly the
source's `process_token`. -/
theorem process_token_dry_off (e : SuperTokenSync.TokenEnv) (t : SuperTokenSync.Token)
    (net : SuperTokenSync.Network) :
    SuperTokenSync.process_token_dry false e t net = SuperTokenSync.process_token e t net := by
  unfold SuperTokenSync.process_token_dry SuperTokenSync.process_token
  rfl

/-- The `create_table` wrapper only ever emits a create operation. -/
theorem create_table_ops (d : Bool) (r : DuneUtils.ClientResp) (n : String) :
    (DuneUtils.create_table d r n).2 = [] ∨
      (DuneUtils.create_table d r n).2 = [DuneUtils.WOp.createTable n] := by
  unfold DuneUtils.create_table
  cases d <;> cases r <;> simp
  rename_i ae
  cases ae.getD true <;> simp

/-- The `clear_table_data` wrapper only ever emits a clear operation. -/
theorem clear_table_data_ops (k : Option String) (r : Option Nat) (n : String) :
    (DuneUtils.clear_table_data k r n).2 = [] ∨
      (DuneUtils.clear_table_data k r n).2 = [DuneUtils.WOp.clearTable n] := by
  unfold DuneUtils.clear_table_data
  cases k with
  | none => simp
  | some s =>
      by_cases hs : s = "" <;> simp [hs]
      cases r <;> simp

/-- The preset-load step only ever emits an insert operation. -/
theorem load_preset_data_ops (env : SupMetricsSync.MEnv) (n : String) :
    (SupMetricsSync.load_preset_data env n).2 = [] ∨
      ∃ rows, (SupMetricsSync.load_preset_data env n).2 = [DuneUtils.WOp.insertRows n rows] := by
  unfold SupMetricsSync.load_preset_data
  cases env.presetFile with
  | absent => simp
  | unreadable => simp [SupMetricsSync.load_preset_csv_data]
  | content f =>
      cases hld : SupMetricsSync.load_preset_csv_data (SupMetricsSync.PresetFS.content f) with
      | none => simp [hld]
      | some rows =>
          cases rows with
          | nil => simp [hld]
          | cons r rs =>
              simp only [hld]
              unfold DuneUtils.insert_data_to_dune
              cases env.duneAvailable <;> simp

/-- C3 counterexample: with the init flag set and a warehouse client whose
`create_table` call raises "permission denied" (a failure that is not
"already exists"), the create step fails, yet the clear step still runs
and the cycle reports success — refuting both "any failing initialization
step aborts the remaining initialization steps" and "initialization either
fully succeeds or the cycle reports failure". -/
theorem C3_counterexample :
    ¬ ((SupMetricsSync.process_metrics envC3 "t").1 = false
       ∨ DuneUtils.WOp.clearTable "t" ∉ (SupMetricsSync.process_metrics envC3 "t").2) := by
  decide

/-- C3 (amended): when the init flag is set, the cycle performs table
initialization only and normal append-mode processing never runs (no
metrics fetch occurs); a failing clear step aborts the preset load (no
insert is emitted) and fails the cycle, and when the clear succeeds the
cycle's outcome is exactly the preset-load outcome (so a failing preset
load fails the cycle).  The create step's outcome, however, is ignored:
every create failure — "already exists" or not — is tolerated and does not
abort the remaining steps. -/
theorem C3_init_replaces_append (env : SupMetricsSync.MEnv) (tbl : String)
    (hi : pyTruthyOptStr env.initFlag = true) :
    SupMetricsSync.process_metrics env tbl = SupMetricsSync.initialize_table env tbl
    ∧ DuneUtils.WOp.fetchMetrics ∉ (SupMetricsSync.process_metrics env tbl).2
    ∧ ((DuneUtils.clear_table_data env.apiKey env.clearResp tbl).1 = false →
        (SupMetricsSync.process_metrics env tbl).1 = false
        ∧ ∀ n rs, DuneUtils.WOp.insertRows n rs ∉ (SupMetricsSync.process_metrics env tbl).2)
    ∧ ((DuneUtils.clear_table_data env.apiKey env.clearResp tbl).1 = true →
        (SupMetricsSync.process_metrics env tbl).1
          = (SupMetricsSync.load_preset_data env tbl).1) := by
  have hpm : SupMetricsSync.process_metrics env tbl = SupMetricsSync.initialize_table env tbl := by
    unfold SupMetricsSync.process_metrics
    rw [hi]
    simp
  refine ⟨hpm, ?_, ?_, ?_⟩
  · rw [hpm]
    unfold SupMetricsSync.initialize_table
    rcases create_table_ops env.duneAvailable env.createResp tbl with hc | hc <;>
      rcases clear_table_data_ops env.apiKey env.clearResp tbl with hcl | hcl <;>
        rcases load_preset_data_ops env tbl with hld | ⟨rows, hld⟩ <;>
          cases hb : (DuneUtils.clear_table_data env.apiKey env.clearResp tbl).1 <;>
            simp [hb, hc, hcl, hld]
  · intro hb
    rw [hpm]
    unfold SupMetricsSync.initialize_table
    rcases create_table_ops env.duneAvailable env.createResp tbl with hc | hc <;>
      rcases clear_table_data_ops env.apiKey env.clearResp tbl with hcl | hcl <;>
        simp [hb, hc, hcl]
  · intro hb
    rw [hpm]
    unfold SupMetricsSync.initialize_table
    simp [hb]

/-- Witness for C3 at a concrete environment with the init flag set. -/
theorem C3_witness :
    pyTruthyOptStr envC3.initFlag = true
    ∧ SupMetricsSync.process_metrics envC3 "t" = SupMetricsSync.initialize_table envC3 "t" :=
  ⟨by decide, (C3_init_replaces_append envC3 "t" (by decide)).1⟩

/-- Upload counting distributes over trace concatenation. -/
theorem countUploads_append (l1 l2 : List SuperTokenSync.HEffect) :
    SuperTokenSync.countUploads (l1 ++ l2)
      = SuperTokenSync.countUploads l1 + SuperTokenSync.countUploads l2 := by
  simp [SuperTokenSync.countUploads, List.countP_append]

/-- A fully valid unit publishes exactly once, and its holder fetch and
upload both appear in its trace. -/
theorem good_unit_trace (e : SuperTokenSync.TokenEnv) (t : SuperTokenSync.Token)
    (net : SuperTokenSync.Network) (hg : SuperTokenSync.goodUnit t e = true) :
    SuperTokenSync.countUploads (SuperTokenSync.process_token e t net) = 1
    ∧ SuperTokenSync.HEffect.upload (SuperTokenSync.tableNameOf t net)
        ∈ SuperTokenSync.process_token e t net
    ∧ SuperTokenSync.HEffect.holderFetch (t.id.getD "") net.chainId
        ∈ SuperTokenSync.process_token e t net := by
  unfold SuperTokenSync.goodUnit at hg
  simp only [Bool.and_eq_true] at hg
  obtain ⟨⟨⟨⟨hv, hh⟩, hcsv⟩, hdune⟩, hup⟩ := hg
  unfold SuperTokenSync.validFields at hv
  simp only [Bool.and_eq_true, Bool.not_eq_true'] at hv
  obtain ⟨hid, hsym⟩ := hv
  cases hres : SuperTokenSync.get_holders e.holdersResp with
  | none => rw [hres] at hh; simp at hh
  | some hs =>
      rw [hres] at hh
      simp only [Bool.not_eq_true'] at hh
      cases harch : e.archiveOk <;>
        simp [SuperTokenSync.process_token, hid, hsym, hres, hh, hcsv, hdune, hup, harch,
          SuperTokenSync.countUploads, List.countP_cons, List.countP_append]

/-- A unit whose holders fetch fails with a transport error publishes
nothing, but its holder fetch still appears in its trace (it was
attempted). -/
theorem tf_unit_trace (e : SuperTokenSync.TokenEnv) (t : SuperTokenSync.Token)
    (net : SuperTokenSync.Network) (hv : SuperTokenSync.validFields t = true)
    (htf : SuperTokenSync.isTransportFail e = true) :
    SuperTokenSync.countUploads (SuperTokenSync.process_token e t net) = 0
    ∧ SuperTokenSync.HEffect.holderFetch (t.id.getD "") net.chainId
        ∈ SuperTokenSync.process_token e t net := by
  have hres : SuperTokenSync.get_holders e.holdersResp = none := by
    unfold SuperTokenSync.isTransportFail at htf
    exact Option.isNone_iff_eq_none.mp htf
  unfold SuperTokenSync.validFields at hv
  simp only [Bool.and_eq_true, Bool.not_eq_true'] at hv
  simp [SuperTokenSync.process_token, hv.1, hv.2, hres,
    SuperTokenSync.countUploads, List.countP_cons, List.countP_append]

/-- A fully valid unit is not a transport failure. -/
theorem good_not_tf (t : SuperTokenSync.Token) (e : SuperTokenSync.TokenEnv)
    (hg : SuperTokenSync.goodUnit t e = true) :
    SuperTokenSync.isTransportFail e = false := by
  unfold SuperTokenSync.goodUnit at hg
  unfold SuperTokenSync.isTransportFail
  cases hres : SuperTokenSync.get_holders e.holdersResp with
  | none => rw [hres] at hg; simp at hg
  | some hs => simp [hres]

/-- Over the serial token loop, the number of published units is the
number of units minus the number of transport failures. -/
theorem loop_trace (net : SuperTokenSync.Network)
    (envF : SuperTokenSync.Token → SuperTokenSync.TokenEnv) (tokens : List SuperTokenSync.Token)
    (h : ∀ t ∈ tokens, SuperTokenSync.goodUnit t (envF t) = true
        ∨ (SuperTokenSync.validFields t = true ∧ SuperTokenSync.isTransportFail (envF t) = true)) :
    SuperTokenSync.countUploads
        ((tokens.map fun t => SuperTokenSync.process_token (envF t) t net).flatten)
      = tokens.length - tokens.countP (fun t => SuperTokenSync.isTransportFail (envF t)) := by
  induction tokens with
  | nil => rfl
  | cons t ts ih =>
      have ht := h t (List.mem_cons_self t ts)
      have hts : ∀ x ∈ ts, SuperTokenSync.goodUnit x (envF x) = true
          ∨ (SuperTokenSync.validFields x = true ∧ SuperTokenSync.isTransportFail (envF x) = true) :=
        fun x hx => h x (List.mem_cons_of_mem t hx)
      have hle : ts.countP (fun x => SuperTokenSync.isTransportFail (envF x)) ≤ ts.length :=
        List.countP_le_length _
      rw [List.map_cons, List.flatten_cons, countUploads_append, ih hts,
        List.countP_cons, List.length_cons]
      rcases ht with hg | ⟨hv, htf⟩
      · rw [(good_unit_trace (envF t) t net hg).1]
        simp only [good_not_tf t (envF t) hg]
        simp
        omega
      · rw [(tf_unit_trace (envF t) t net hv htf).1]
        simp only [htf]
        simp

/-- C4: in a cycle over one mainnet network whose subgraph lists N tokens,
of which exactly K fail the holders fetch with a transport error (non-200,
API error or exception) while the rest behave normally, the cycle still
attempts every unit (each unit's holder fetch occurs), publishes each of
the N-K non-failing units, and the cycle's succeeded count equals N - K:
no unit failure aborts the cycle. -/
theorem C4_partial_failure_isolated (net : SuperTokenSync.Network)
    (envF : SuperTokenSync.Token → SuperTokenSync.TokenEnv) (tokens : List SuperTokenSync.Token)
    (h1 : net.isTestnet = some false) (h2 : pyFalsyStr net.duneName = false)
    (h : ∀ t ∈ tokens, SuperTokenSync.goodUnit t (envF t) = true
        ∨ (SuperTokenSync.validFields t = true ∧ SuperTokenSync.isTransportFail (envF t) = true)) :
    SuperTokenSync.cycleSucceededCount
        (SuperTokenSync.sync_once
          ⟨some [net], false, fun _ => SuperTokenSync.SubgraphResp.ok tokens, fun _ t => envF t⟩)
      = tokens.length - tokens.countP (fun t => SuperTokenSync.isTransportFail (envF t))
    ∧ (∀ t ∈ tokens, SuperTokenSync.HEffect.holderFetch (t.id.getD "") net.chainId
        ∈ SuperTokenSync.sync_once
            ⟨some [net], false, fun _ => SuperTokenSync.SubgraphResp.ok tokens, fun _ t => envF t⟩)
    ∧ (∀ t ∈ tokens, SuperTokenSync.goodUnit t (envF t) = true →
        SuperTokenSync.HEffect.upload (SuperTokenSync.tableNameOf t net)
          ∈ SuperTokenSync.sync_once
              ⟨some [net], false, fun _ => SuperTokenSync.SubgraphResp.ok tokens, fun _ t => envF t⟩) := by
  have htrace : SuperTokenSync.sync_once
        ⟨some [net], false, fun _ => SuperTokenSync.SubgraphResp.ok tokens, fun _ t => envF t⟩
      = SuperTokenSync.HEffect.logInfo ("Processing " ++ net.name)
          :: (tokens.map fun t => SuperTokenSync.process_token (envF t) t net).flatten := by
    unfold SuperTokenSync.sync_once SuperTokenSync.processNetwork SuperTokenSync.get_networks
      SuperTokenSync.get_tokens
    simp [h1, h2]
  refine ⟨?_, ?_, ?_⟩
  · rw [htrace]
    have : SuperTokenSync.cycleSucceededCount
        (SuperTokenSync.HEffect.logInfo ("Processing " ++ net.name)
          :: (tokens.map fun t => SuperTokenSync.process_token (envF t) t net).flatten)
      = SuperTokenSync.countUploads
          ((tokens.map fun t => SuperTokenSync.process_token (envF t) t net).flatten) := by
      simp [SuperTokenSync.cycleSucceededCount, SuperTokenSync.countUploads, List.countP_cons]
    rw [this]
    exact loop_trace net envF tokens h
  · intro t ht
    rw [htrace]
    apply List.mem_cons_of_mem
    refine List.mem_flatten.mpr ⟨SuperTokenSync.process_token (envF t) t net, ?_, ?_⟩
    · exact List.mem_map_of_mem _ ht
    · rcases h t ht with hg | ⟨hv, htf⟩
      · exact (good_unit_trace (envF t) t net hg).2.2
      · exact (tf_unit_trace (envF t) t net hv htf).2
  · intro t ht hg
    rw [htrace]
    apply List.mem_cons_of_mem
    refine List.mem_flatten.mpr ⟨SuperTokenSync.process_token (envF t) t net, ?_, ?_⟩
    · exact List.mem_map_of_mem _ ht
    · exact (good_unit_trace (envF t) t net hg).2.1

/-- Witness for C4: a two-unit cycle where one unit hits HTTP 500 on the
holders fetch publishes exactly one unit (2 - 1). -/
theorem C4_witness :
    (∀ t ∈ [goodTok, badTok], SuperTokenSync.goodUnit t (envFC4 t) = true
        ∨ (SuperTokenSync.validFields t = true ∧ SuperTokenSync.isTransportFail (envFC4 t) = true))
    ∧ SuperTokenSync.cycleSucceededCount
        (SuperTokenSync.sync_once
          ⟨some [netC7], false, fun _ => SuperTokenSync.SubgraphResp.ok [goodTok, badTok],
           fun _ t => envFC4 t⟩)
      = ([goodTok, badTok] : List SuperTokenSync.Token).length
          - ([goodTok, badTok] : List SuperTokenSync.Token).countP
              (fun t => SuperTokenSync.isTransportFail (envFC4 t)) :=
  ⟨by decide,
   (C4_partial_failure_isolated netC7 envFC4 [goodTok, badTok] (by decide) (by decide)
      (by decide)).1⟩

end SfDune
